import Mathlib

/-
Verification of the doc_loader skill (src/skills/doc_loader/doc_loader.py):
a documentation ingestion and retrieval pipeline.  Python strings are
modelled as Lean `String` (a structure holding a `List Char`), and the
Python string methods used by the source are given explicit executable
models below.  Network, git and vector-store effects are modelled as
explicit inputs: a crawl graph maps each URL to the outcome of the two
fetches the crawler performs on it, a clone result records what the
external `git clone` invocation produced, and the persisted index is an
explicit piece of state threaded through the entry point.
-/

set_option maxRecDepth 4096

/-! ## Models of the Python string primitives used by the source -/

/-- The whitespace characters removed by the Python `str.strip()` calls in
the source (the ASCII whitespace class). -/
def pyWS (c : Char) : Bool :=
  c == ' ' || c == '\t' || c == '\n' || c == '\r' || c == '\x0b' || c == '\x0c'

/-- `str.strip()` on the underlying character list: drop leading and
trailing whitespace. -/
def stripData (l : List Char) : List Char :=
  ((l.dropWhile pyWS).reverse.dropWhile pyWS).reverse

/-- Python `s.strip()`. -/
def pyStrip (s : String) : String :=
  String.mk (stripData s.data)

/-- Python slicing `s[:n]`. -/
def pyTake (s : String) (n : Nat) : String :=
  String.mk (s.data.take n)

/-- `str.split(sep)` on character lists, by structural recursion on a fuel
bound (the fuel is instantiated with the length of the input, which is
always sufficient because every step consumes at least one character). -/
def splitData (sep : List Char) : Nat → List Char → List (List Char)
  | _, [] => [[]]
  | 0, l => [l]
  | fuel + 1, c :: rest =>
    if sep.isPrefixOf (c :: rest) then
      [] :: splitData sep fuel ((c :: rest).drop sep.length)
    else
      match splitData sep fuel rest with
      | [] => [[c]]
      | a :: as => (c :: a) :: as

/-- Python `s.split(sep)` for a non-empty separator. -/
def pySplit (sep s : String) : List String :=
  if sep.data = [] then [s]
  else (splitData sep.data (s.data.length + 1) s.data).map (fun d => String.mk d)

/-- Python `"\n\n".join(parts)` and friends. -/
def pyIntercalate (sep : String) (parts : List String) : String :=
  String.mk (List.intercalate sep.data (parts.map String.data))

/-- Python `s.startswith(p)`. -/
def pyStartsWith (p s : String) : Bool :=
  p.data.isPrefixOf s.data

/-- Python `s.endswith(p)`. -/
def pyEndsWith (p s : String) : Bool :=
  p.data.isSuffixOf s.data

/-- Substring search on character lists: true when `needle` occurs as a
contiguous run inside the second argument. -/
def containsSeq (needle : List Char) : List Char → Bool
  | [] => needle.isEmpty
  | c :: rest => needle.isPrefixOf (c :: rest) || containsSeq needle rest

/-- The Python `needle in hay` test on strings (substring containment). -/
def substrB (needle hay : String) : Bool :=
  containsSeq needle.data hay.data

/-- The source expression `url.split("://")[1].split("/")[0]`.  Returns
`none` when the URL has no `"://"`, in which case the Python expression
raises `IndexError` (swallowed by the enclosing handler). -/
def splitHost (url : String) : Option String :=
  match pySplit "://" url with
  | _ :: second :: _ => some ((pySplit "/" second).headD "")
  | _ => none

/-- Model of `urllib.parse.urljoin(url, link)` restricted to the only
shapes the source feeds it: `link` starts with `"/"`.  A protocol-relative
`"//host/p"` link keeps only the base scheme; a path-absolute `"/p"` link
keeps the base scheme and host.  A base without `"://"` has no scheme or
netloc, so the reference is returned unchanged. -/
def pyUrljoin (url link : String) : String :=
  if pyStartsWith "//" link then
    (pySplit "://" url).headD "" ++ ":" ++ link
  else
    match splitHost url with
    | some h => (pySplit "://" url).headD "" ++ "://" ++ h ++ link
    | none => link

/-! ## Source classifier and repository markdown extractor -/

/-- `is_git_repo_url` (doc_loader.py line 54). -/
def is_git_repo_url (url : String) : Bool :=
  substrB "repo1.dso.mil" url || pyEndsWith ".git" url

/-- One file met by the `os.walk` over the cloned workspace: its name, the
`TextLoader` outcome (`none` models an extraction exception) and the
raw-read fallback outcome (`none` models a second exception). -/
structure RepoFile where
  name : String
  loaded : Option (List String)
  raw : Option String
deriving DecidableEq

/-- Outcome of the external `git clone` process: `ok files` is a
successful clone whose workspace walk meets `files`; `fail dirLeft`
is a failed clone, where `dirLeft` records whether the failed git
invocation left the destination directory behind (git removes a
directory it created when the transfer fails, but a clone whose
checkout step fails exits non-zero with the directory in place). -/
inductive CloneResult where
  | ok (files : List RepoFile)
  | fail (dirLeft : Bool)
deriving DecidableEq

/-- The per-file body of the extractor loop (doc_loader.py lines 70-82):
`TextLoader` output filtered by the noise filter, with the raw-read
fallback on extraction failure; both failure paths are swallowed. -/
def extractFile (f : RepoFile) : List String :=
  match f.loaded with
  | some docs => docs.filter (fun d => !d.data.isEmpty && decide (50 < (pyStrip d).data.length))
  | none =>
    match f.raw with
    | some content => if 50 < (pyStrip content).data.length then [content] else []
    | none => []

/-- `clone_and_load_md` (doc_loader.py lines 57-84).  The first input
records whether a stale workspace exists at `/tmp/doc_loader_git` (it is
removed before cloning, so it does not affect the result).  The returned
pair is (does the workspace directory exist when the call returns,
extracted markdown documents).  On clone failure the function returns at
line 64 without performing any removal itself, so the workspace state is
whatever the failed git invocation left; on every other path the
`shutil.rmtree` at line 83 runs. -/
def clone_and_load_md (dirExists : Bool) (res : CloneResult) : Bool × List String :=
  match res with
  | .fail dirLeft => (dirLeft, [])
  | .ok files =>
    (false,
      files.foldl
        (fun acc f => if pyEndsWith ".md" f.name then acc ++ extractFile f else acc) [])

/-! ## Ingestion aggregation -/

/-- The aggregation loop over `executor.map(smart_scrape, urls)`
(doc_loader.py lines 247-251): `ThreadPoolExecutor.map` yields results in
submission order regardless of completion order, and the loop extends
`all_chunks` with each result in that order. -/
def aggregateChunks (sc : String → List String) (urls : List String) : List String :=
  (urls.map sc).flatten

/-! ## Recursive web crawler -/

/-- Outcome of the two independent fetches `scrape_url_recursive`
performs on one URL: `loaderDocs` is the `WebBaseLoader` result
(doc_loader.py lines 94-97; `none` models the swallowed exception) and
`fetched` is the hyperlink list from the `requests.get` plus
`BeautifulSoup` pass (lines 100-103; `none` models the swallowed
exception, in which case no links are followed). -/
structure Page where
  loaderDocs : Option (List String)
  fetched : Option (List String)

/-- The crawl environment: what the network returns for each URL. -/
abbrev Graph : Type := String → Page

/-- The link loop of `scrape_url_recursive` (doc_loader.py lines
103-108), abstracted over the recursive call `next` made on each followed
link.  A link starting with `"/"` is resolved with `urljoin` against the
current URL; the (possibly resolved) link is followed exactly when the
current URL's host occurs in it as a substring; the visited set is
threaded left to right, exactly as the shared mutable Python set is. -/
def crawlLinksGo (next : String → List String → Option (List String × List String))
    (url h : String) : List String → List String → Option (List String × List String)
  | [], visited => some (visited, [])
  | link :: rest, visited =>
    let link1 := if pyStartsWith "/" link then pyUrljoin url link else link
    if substrB h link1 then
      match next link1 visited with
      | none => none
      | some (v1, ds1) =>
        match crawlLinksGo next url h rest v1 with
        | none => none
        | some (v2, ds2) => some (v2, ds1 ++ ds2)
    else crawlLinksGo next url h rest visited

/-- `scrape_url_recursive` (doc_loader.py lines 86-111) in state-passing
form: the pair returned is (visited set after the call, documents
aggregated by the call).  Recursion is by structural recursion on a fuel
bound; one unit of fuel is consumed per depth level, and `none` models
fuel exhaustion (shown unreachable from the entry point below, mirroring
the termination of the Python recursion).  Guard, visited marking, the
noise filter on loader output, and the condition under which the link
loop runs (link discovery succeeded and the current URL contains
`"://"`; otherwise the loop body raises `IndexError` into the swallowing
handler before any recursion) all follow the source line by line. -/
def crawlF (g : Graph) : Nat → String → List String → Nat → Nat →
    Option (List String × List String)
  | 0, _, _, _, _ => none
  | fuel + 1, url, visited, depth, maxDepth =>
    if url ∈ visited ∨ maxDepth < depth then some (visited, [])
    else
      let visited1 := url :: visited
      let docs0 :=
        match (g url).loaderDocs with
        | some ds => ds.filter (fun d => !d.data.isEmpty && decide (50 < (pyStrip d).data.length))
        | none => []
      match (g url).fetched, splitHost url with
      | some links, some h =>
        match crawlLinksGo (fun l v => crawlF g fuel l v (depth + 1) maxDepth)
            url h links visited1 with
        | some (v2, ds2) => some (v2, docs0 ++ ds2)
        | none => none
      | _, _ => some (visited1, docs0)

/-- The entry point `scrape_url_recursive(url, max_depth=d)`: fresh
visited set, depth 0; the fuel `maxDepth + 2` covers every depth level
the recursion can reach. -/
def scrape_url_recursive (g : Graph) (url : String) (maxDepth : Nat) : List String :=
  match crawlF g (maxDepth + 2) url [] 0 maxDepth with
  | some p => p.2
  | none => []

/-- Sequential crawling of a list of URLs at one depth, threading the
visited set: the normal form against which the link loop is compared. -/
def crawlSeq (next : String → List String → Option (List String × List String)) :
    List String → List String → Option (List String × List String)
  | [], visited => some (visited, [])
  | u :: rest, visited =>
    match next u visited with
    | none => none
    | some (v1, ds1) =>
      match crawlSeq next rest v1 with
      | none => none
      | some (v2, ds2) => some (v2, ds1 ++ ds2)

/-- The links a page actually recurses into: resolve the links that start
with `"/"` against the current URL, then keep those in which the current
URL's host occurs as a substring. -/
def processLinks (url h : String) (links : List String) : List String :=
  (links.map (fun link => if pyStartsWith "/" link then pyUrljoin url link else link)).filter
    (fun link => substrB h link)

/-- `smart_scrape` (doc_loader.py lines 242-245), with the text splitter
abstracted as `split` and the external environments given explicitly. -/
def smart_scrape (split : List String → List String) (web : Graph)
    (repo : String → CloneResult) (dirExists : Bool) (url : String) : List String :=
  if is_git_repo_url url then split (clone_and_load_md dirExists (repo url)).2
  else split (scrape_url_recursive web url 3)

/-! ## Query path and ingestion entry point -/

/-- The `response` field of a query reply: either the original question
echoed back, or an assembled instruction object. -/
inductive Response where
  | text (s : String)
  | instruction (s : String)
deriving DecidableEq

/-- The structured JSON payloads `main` prints: the fatal error payload
(with its literal `error` and `retry` fields), the ingestion success
payload, the query payload (with its `retrieved_chunks` and
`index_found` context fields), and the session-guard skip payload. -/
inductive Output where
  | err (response : String) (error retry : Bool)
  | indexed (response : String) (numUrls numChunks : Nat)
  | ask (response : Response) (retrievedChunks : Nat) (indexFound : Bool)
  | skipped
deriving DecidableEq

/-- Recognises the fatal payload `{response, error: true, retry: false}`. -/
def isFatalErr : Output → Bool
  | .err _ e r => e && !r
  | _ => false

/-- Caller-visible state of one process: the PersistedIndex at the fixed
location (`none` when `/tmp/doc_loader_vector_db` does not exist, else
the chunk list it embeds, one index entry per chunk) and the
`SCRAPE_ALREADY_RAN` session flag. -/
structure SysState where
  index : Option (List String)
  scrapeRan : Bool
deriving DecidableEq

/-- The commands `main` dispatches on after normalisation: a question
(`ask: q`), an ingestion request (`index`, with the `target_urls` string
from the context), or anything else. -/
inductive Cmd where
  | ask (question : String)
  | index (targetUrls : String)
  | unknown (input : String)

/-- The URL list parse (doc_loader.py lines 232-233). -/
def parseUrls (raw : String) : List String :=
  ((pySplit "," raw).map pyStrip).filter (fun u => !u.data.isEmpty)

/-- One chunk summary (doc_loader.py line 189): the first 200 characters
of the stripped text, with an ellipsis appended exactly when the text was
longer than 200 characters. -/
def summaryFn (text : String) : String :=
  pyTake text 200 ++ (if 200 < text.data.length then "..." else "")

/-- The summary list built from the retrieved documents (doc_loader.py
lines 185-189): documents whose stripped text is empty are skipped. -/
def summariesOf (docs : List String) : List String :=
  docs.filterMap (fun doc =>
    let text := pyStrip doc
    if text.data = [] then none else some (summaryFn text))

/-- `summary_text` (doc_loader.py line 190): the summaries joined by a
blank line, then stripped. -/
def summaryTextOf (docs : List String) : String :=
  pyStrip (pyIntercalate "\n\n" (summariesOf docs))

def promptPre : String :=
  "Here is some potentially helpful information retrieved from documentation:\n\n"

def promptMid : String :=
  "\n\nYou are the expert in this context. Using this information as context, and combining it with your general knowledge, please provide a clear, thorough, and complete answer to the following question:\n\n\""

def promptPost : String :=
  "\"\n\nWrite a helpful, complete answer — even if the retrieved information is incomplete. You MUST Use your own knowledge as needed. If you\x27re ABSOLUTELY uncertain, just say: \x27This information is not available.\x27"

/-- `final_prompt` (doc_loader.py lines 202-208): the summary text and
the question embedded verbatim in the fixed instruction template. -/
def finalPrompt (summary_text question : String) : String :=
  promptPre ++ (summary_text ++ (promptMid ++ (question ++ promptPost)))

/-- The `ask:` branch of `main` (doc_loader.py lines 169-219).
`indexExists` is the `os.path.exists(PERSIST_DIR)` test; `retrieve` is
the top-5 similarity retrieval over the persisted store, abstracted as a
function from the question to the retrieved chunk texts. -/
def runAsk (indexExists : Bool) (retrieve : String → List String) (question : String) : Output :=
  if indexExists then
    let docs := retrieve question
    let summary_text := summaryTextOf docs
    if summary_text.data = [] then Output.ask (Response.text question) 0 true
    else Output.ask (Response.instruction (finalPrompt summary_text question)) docs.length true
  else Output.ask (Response.text question) 0 false

/-- The `index` branch of `main` (doc_loader.py lines 221-267), as a
transition on the caller-visible state.  `sc` is the per-source pipeline
`smart_scrape` run by the worker pool.  Order of operations follows the
source: the session-guard check, the URL parse and its `ValueError`
(raised before anything is deleted), then the deletion of any existing
PersistedIndex, then scraping and aggregation, then the no-content
`RuntimeError` (raised after the deletion), and finally persistence of
the new index and the setting of the session flag. -/
def runIndex (sc : String → List String) (st : SysState) (raw : String) : SysState × Output :=
  if st.scrapeRan then
    (st, Output.skipped)
  else
    let urls := parseUrls raw
    if urls = [] then
      (st, Output.err "❌ Skill failed: No valid URLs provided in \x27target_urls\x27." true false)
    else
      let cleared : SysState := ⟨none, st.scrapeRan⟩
      let all_chunks := aggregateChunks sc urls
      if all_chunks = [] then
        (cleared,
          Output.err "❌ Skill failed: No content could be scraped from the provided URLs." true false)
      else
        (⟨some all_chunks, true⟩,
          Output.indexed
            ("✅ Indexed " ++ toString all_chunks.length ++ " chunks from "
              ++ toString urls.length ++ " URLs.")
            urls.length all_chunks.length)

/-- The command dispatch of `main` (doc_loader.py lines 147-278) as a
state transition returning the new caller-visible state and the printed
payload. -/
def mainRun (sc : String → List String) (retrieve : String → List String)
    (st : SysState) (cmd : Cmd) : SysState × Output :=
  match cmd with
  | .ask q => (st, runAsk st.index.isSome retrieve q)
  | .index raw => runIndex sc st raw
  | .unknown s =>
    (st, Output.err ("❌ Skill failed: Unknown command: \x27" ++ s ++ "\x27") true false)

/-! ## Concrete instances used by counterexamples and witnesses -/

/-- A crawl graph on which every fetch fails. -/
def gTriv : Graph := fun _ => { loaderDocs := none, fetched := none }

def rootUrl : String := "http://a.com"

def evilUrl : String := "http://evil.com/?q=a.com"

def evilDoc : String :=
  "This page lives on a different host than the crawl root yet it is crawled."

def relUrl : String := "docs/a.com-page.html"

def relDoc : String :=
  "This content sits behind a relative link that was never resolved to an absolute URL."

/-- A three-page crawl graph: the root links to a page on a foreign host
whose URL happens to contain the root host as a substring, and to a
relative link (not starting with a slash) that also contains the root
host as a substring. -/
def gC3 : Graph := fun u =>
  if u = rootUrl then { loaderDocs := none, fetched := some [evilUrl, relUrl] }
  else if u = evilUrl then { loaderDocs := some [evilDoc], fetched := some [] }
  else if u = relUrl then { loaderDocs := some [relDoc], fetched := none }
  else { loaderDocs := none, fetched := none }

/-- A retrieval stub returning one fixed non-empty chunk. -/
def rOneChunk : String → List String :=
  fun _ => ["Retrieval returned this chunk of documentation text for the question."]

/-! ## Claim C2 and C6 theorems -/

/-- C2 counterexample: the claim asserts that after a clone failure no
workspace directory remains at the fixed path.  On the clone-failure path
(doc_loader.py lines 63-64) the function returns without removing
anything, so when the failed git invocation leaves the destination
directory (a clone whose checkout fails does exactly that), the workspace
is still present when the call returns. -/
theorem clone_failure_may_leave_workspace :
    (clone_and_load_md false (CloneResult.fail true)).1 = true := by
  rfl

/-- C2 (amended): the temporary clone workspace is removed before the
call returns on every path except clone failure: after a successful clone
the workspace is always removed, even when extraction raised for some
files and even when zero documents were produced; on clone failure the
function performs no removal of its own and the workspace state is
exactly whatever the failed git invocation left behind. -/
theorem workspace_removed_except_clone_failure (dirExists : Bool)
    (files : List RepoFile) (b : Bool) :
    (clone_and_load_md dirExists (CloneResult.ok files)).1 = false
    ∧ (clone_and_load_md dirExists (CloneResult.fail b)).1 = b :=
  ⟨rfl, rfl⟩

/-- C6: the concurrent fetch aggregates per-source chunk lists in
source-submission order (the contract of `ThreadPoolExecutor.map`), and a
source that fails completely contributes the empty list: the aggregate
equals the concatenation, in submission order, of the chunks of exactly
the successful sources, so one source failing totally neither cancels nor
fails its siblings. -/
theorem aggregate_ignores_failed_sources (sc : String → List String) (urls : List String) :
    aggregateChunks sc urls
      = aggregateChunks sc (urls.filter (fun u => !(sc u).isEmpty)) := by
  induction urls with
  | nil => rfl
  | cons u rest ih =>
    cases h : (sc u).isEmpty with
    | true =>
      have h2 : sc u = [] := by
        cases hu : sc u with
        | nil => rfl
        | cons a as => rw [hu] at h; simp [List.isEmpty] at h
      simp [aggregateChunks, List.filter_cons, h, h2] at *
      exact ih
    | false =>
      simp [aggregateChunks, List.filter_cons, h] at *
      exact ih

/-! ## Helper lemmas -/

lemma crawlSeq_cons (next : String → List String → Option (List String × List String))
    (u : String) (rest visited : List String) :
    crawlSeq next (u :: rest) visited
      = match next u visited with
        | none => none
        | some (v1, ds1) =>
          match crawlSeq next rest v1 with
          | none => none
          | some (v2, ds2) => some (v2, ds1 ++ ds2) := rfl

lemma crawlLinksGo_eq_seq (next : String → List String → Option (List String × List String))
    (url h : String) (links visited : List String) :
    crawlLinksGo next url h links visited = crawlSeq next (processLinks url h links) visited := by
  induction links generalizing visited with
  | nil => rfl
  | cons link rest ih =>
    cases hc : substrB h (if pyStartsWith "/" link then pyUrljoin url link else link) with
    | false =>
      simp only [crawlLinksGo, processLinks, List.map_cons, List.filter_cons, hc,
        Bool.false_eq_true, if_false]
      have := ih visited
      simp only [processLinks] at this
      exact this
    | true =>
      simp only [crawlLinksGo, processLinks, List.map_cons, List.filter_cons, hc, if_true]
      rw [crawlSeq_cons]
      cases hn : next (if pyStartsWith "/" link then pyUrljoin url link else link) visited with
      | none => rfl
      | some q =>
        obtain ⟨v1, ds1⟩ := q
        simp only []
        have := ih v1
        simp only [processLinks] at this
        rw [this]

lemma crawlLinksGo_inv (next : String → List String → Option (List String × List String))
    (hn : ∀ l v q, next l v = some q → (v.Nodup → q.1.Nodup) ∧ v ⊆ q.1)
    (url h : String) (links : List String) :
    ∀ visited p, crawlLinksGo next url h links visited = some p →
      (visited.Nodup → p.1.Nodup) ∧ visited ⊆ p.1 := by
  induction links with
  | nil =>
    intro visited p hp
    rw [crawlLinksGo] at hp
    injection hp with hpp
    subst hpp
    exact ⟨id, fun x hx => hx⟩
  | cons link rest ih =>
    intro visited p hp
    rw [crawlLinksGo] at hp
    by_cases hc : substrB h (if pyStartsWith "/" link then pyUrljoin url link else link) = true
    · rw [if_pos hc] at hp
      cases hx : next (if pyStartsWith "/" link then pyUrljoin url link else link) visited with
      | none => rw [hx] at hp; exact absurd hp (by simp)
      | some q1 =>
        rw [hx] at hp
        obtain ⟨v1, ds1⟩ := q1
        simp only [] at hp
        cases hy : crawlLinksGo next url h rest v1 with
        | none => rw [hy] at hp; exact absurd hp (by simp)
        | some q2 =>
          rw [hy] at hp
          obtain ⟨v2, ds2⟩ := q2
          simp only [] at hp
          injection hp with hpp
          subst hpp
          have h1 := hn _ _ _ hx
          have h2 := ih v1 _ hy
          exact ⟨fun hnd => h2.1 (h1.1 hnd), fun x hx2 => h2.2 (h1.2 hx2)⟩
    · rw [if_neg hc] at hp
      exact ih visited p hp

lemma crawlF_inv : ∀ (fuel : Nat) (g : Graph) (url : String) (visited : List String)
    (depth maxDepth : Nat) (p : List String × List String),
    crawlF g fuel url visited depth maxDepth = some p →
      (visited.Nodup → p.1.Nodup) ∧ visited ⊆ p.1
      ∧ (url ∉ visited → depth ≤ maxDepth → url ∈ p.1) := by
  intro fuel
  induction fuel with
  | zero =>
    intro g url visited d m p hp
    exact absurd hp (by rw [crawlF]; simp)
  | succ f ih =>
    intro g url visited d m p hp
    rw [crawlF] at hp
    by_cases hg : url ∈ visited ∨ m < d
    · rw [if_pos hg] at hp
      injection hp with hpp
      subst hpp
      refine ⟨id, fun x hx => hx, fun hnv hd => ?_⟩
      cases hg with
      | inl hmem => exact absurd hmem hnv
      | inr hlt => exact absurd hd (by omega)
    · rw [if_neg hg] at hp
      have hnv : url ∉ visited := fun hmem => hg (Or.inl hmem)
      simp only [] at hp
      cases hf : (g url).fetched with
      | none =>
        rw [hf] at hp
        simp only [] at hp
        injection hp with hpp
        subst hpp
        refine ⟨fun hnd => List.nodup_cons.mpr ⟨hnv, hnd⟩, fun x hx => List.mem_cons_of_mem _ hx,
          fun _ _ => List.mem_cons_self _ _⟩
      | some links =>
        rw [hf] at hp
        cases hs : splitHost url with
        | none =>
          rw [hs] at hp
          simp only [] at hp
          injection hp with hpp
          subst hpp
          refine ⟨fun hnd => List.nodup_cons.mpr ⟨hnv, hnd⟩, fun x hx => List.mem_cons_of_mem _ hx,
            fun _ _ => List.mem_cons_self _ _⟩
        | some h =>
          rw [hs] at hp
          simp only [] at hp
          cases hgo : crawlLinksGo (fun l v => crawlF g f l v (d + 1) m) url h links (url :: visited) with
          | none => rw [hgo] at hp; exact absurd hp (by simp)
          | some q2 =>
            rw [hgo] at hp
            obtain ⟨v2, ds2⟩ := q2
            simp only [] at hp
            injection hp with hpp
            subst hpp
            have hlinks := crawlLinksGo_inv (fun l v => crawlF g f l v (d + 1) m)
              (fun l v q hq => ⟨(ih g l v (d + 1) m q hq).1, (ih g l v (d + 1) m q hq).2.1⟩)
              url h links (url :: visited) _ hgo
            refine ⟨fun hnd => hlinks.1 (List.nodup_cons.mpr ⟨hnv, hnd⟩),
              fun x hx => hlinks.2 (List.mem_cons_of_mem _ hx),
              fun _ _ => hlinks.2 (List.mem_cons_self _ _)⟩

lemma crawlLinksGo_isSome (next : String → List String → Option (List String × List String))
    (hn : ∀ l v, (next l v).isSome = true) (url h : String) (links : List String) :
    ∀ visited, (crawlLinksGo next url h links visited).isSome = true := by
  induction links with
  | nil => intro v; rfl
  | cons link rest ih =>
    intro v
    rw [crawlLinksGo]
    by_cases hc : substrB h (if pyStartsWith "/" link then pyUrljoin url link else link) = true
    · rw [if_pos hc]
      obtain ⟨q, hq⟩ := Option.isSome_iff_exists.mp (hn _ v)
      rw [hq]
      obtain ⟨v1, ds1⟩ := q
      simp only []
      obtain ⟨q2, hq2⟩ := Option.isSome_iff_exists.mp (ih v1)
      rw [hq2]
      obtain ⟨v2, ds2⟩ := q2
      rfl
    · rw [if_neg hc]
      exact ih v

lemma crawlF_isSome : ∀ (fuel : Nat) (g : Graph) (url : String) (visited : List String)
    (d m : Nat), m + 2 - d ≤ fuel → 0 < fuel →
    (crawlF g fuel url visited d m).isSome = true := by
  intro fuel
  induction fuel with
  | zero => intro g url visited d m h1 h2; exact absurd h2 (by omega)
  | succ f ih =>
    intro g url visited d m h1 _
    rw [crawlF]
    by_cases hg : url ∈ visited ∨ m < d
    · rw [if_pos hg]; rfl
    · rw [if_neg hg]
      have hd : d ≤ m := by
        rcases Nat.lt_or_ge d (m + 1) with hlt | hge
        · omega
        · exact absurd (Or.inr (by omega)) hg
      simp only []
      cases hf : (g url).fetched with
      | none => rfl
      | some links =>
        cases hs : splitHost url with
        | none => rfl
        | some h =>
          have hgo := crawlLinksGo_isSome (fun l v => crawlF g f l v (d + 1) m)
            (fun l v => ih g l v (d + 1) m (by omega) (by omega)) url h links (url :: visited)
          obtain ⟨q, hq⟩ := Option.isSome_iff_exists.mp hgo
          obtain ⟨v2, ds2⟩ := q
          simp [hq]

lemma summariesOf_eq (docs : List String) :
    summariesOf docs
      = (((docs.map pyStrip).filter (fun t => !t.data.isEmpty)).map summaryFn) := by
  induction docs with
  | nil => rfl
  | cons d rest ih =>
    simp only [summariesOf, List.filterMap_cons, List.map_cons, List.filter_cons] at *
    by_cases hd : (pyStrip d).data = []
    · simp [hd, List.isEmpty_iff, ih]
    · simp [hd, List.isEmpty_iff, ih]

/-! ## Crawler claim theorems -/

/-- C3 counterexample: the claim asserts that every relative link is
resolved against the current URL and that the crawler recurses only into
links whose host equals the root host.  On the graph `gC3` the crawl
rooted at `http://a.com` recurses into `http://evil.com/?q=a.com`, whose
host is `evil.com`, not the root host `a.com` (the source test at
doc_loader.py line 107 is substring containment of the current host in
the link text, not host equality), and it also recurses into the literal
unresolved string `docs/a.com-page.html` (no `://` in it), because only
links starting with `/` are resolved at lines 105-106.  Both foreign
pages contribute documents and both raw strings enter the visited set. -/
theorem crawler_follows_foreign_host_link :
    crawlF gC3 5 rootUrl [] 0 3
      = some ([relUrl, evilUrl, rootUrl], [evilDoc, relDoc])
    ∧ splitHost rootUrl = some "a.com"
    ∧ splitHost evilUrl = some "evil.com"
    ∧ ("evil.com" : String) ≠ "a.com"
    ∧ pyStartsWith "/" relUrl = false
    ∧ substrB "://" relUrl = false := by
  refine ⟨by decide, by decide, by decide, by decide, by decide, by decide⟩

/-- C3 (amended): for every page fetched during a crawl, the discovered
hyperlinks that start with `/` (and only those) are resolved against the
current URL; the crawler recurses, in document order and with depth
incremented by exactly 1, into exactly the (possibly resolved) links
that contain the current URL's host as a substring — equivalently, the
link loop behaves as a sequential crawl of `processLinks url h links` at
depth `depth + 1`. -/
theorem crawl_links_resolution_and_filter (g : Graph) (fuel : Nat) (url h : String)
    (links visited : List String) (depth maxDepth : Nat) :
    crawlLinksGo (fun l v => crawlF g fuel l v (depth + 1) maxDepth) url h links visited
      = crawlSeq (fun l v => crawlF g fuel l v (depth + 1) maxDepth)
          (processLinks url h links) visited :=
  crawlLinksGo_eq_seq _ url h links visited

/-- C4: within one traversal the visited set never holds a URL twice
(starting from a duplicate-free visited set, every reachable visited set
is duplicate-free), and a call on an already-visited URL or with
`depth > maxDepth` returns empty immediately — for every graph, so
nothing is fetched — leaving the visited set unchanged. -/
theorem crawl_visited_nodup_and_depth_guard (g : Graph) (fuel : Nat) (url : String)
    (visited : List String) (depth maxDepth : Nat) (hnd : visited.Nodup) :
    ((url ∈ visited ∨ maxDepth < depth) →
        crawlF g (fuel + 1) url visited depth maxDepth = some (visited, []))
    ∧ (∀ p, crawlF g fuel url visited depth maxDepth = some p → p.1.Nodup) := by
  constructor
  · intro hg
    rw [crawlF, if_pos hg]
  · intro p hp
    exact (crawlF_inv fuel g url visited depth maxDepth p hp).1 hnd

/-- Witness for C4 at a concrete input: the guard fires at depth 5 with
`maxDepth = 3` and returns the visited set unchanged with no documents. -/
theorem crawl_visited_nodup_and_depth_guard_instance :
    List.Nodup ([] : List String)
    ∧ crawlF gTriv 1 "http://b.com/page" [] 5 3 = some ([], []) :=
  ⟨by decide,
    (crawl_visited_nodup_and_depth_guard gTriv 0 "http://b.com/page" [] 5 3 (by decide)).1
      (Or.inr (by decide))⟩

/-- C5: the recursive crawl terminates on every root URL, every (finite
link list) graph and every maxDepth: the fuel `maxDepth + 2`, which
bounds the recursion depth, is always sufficient — the crawl never
reaches the fuel-exhaustion branch, because each recursive step
increases depth by 1 and every call beyond `maxDepth` returns
immediately. -/
theorem crawl_terminates (g : Graph) (url : String) (maxDepth : Nat) :
    (crawlF g (maxDepth + 2) url [] 0 maxDepth).isSome = true :=
  crawlF_isSome (maxDepth + 2) g url [] 0 maxDepth (by omega) (by omega)

/-- C10: a URL is marked visited before any extraction or link fetch is
attempted for it: a call on a URL already in the visited set returns
empty immediately (for every graph, hence with no retry of a URL whose
fetches failed earlier — failure and success mark visited alike), the
visited set only grows, and every processed URL (unvisited, within the
depth bound) is in the visited set of the result, so later occurrences
of that URL in the same traversal contribute nothing. -/
theorem visited_marked_first_no_reprocess (g : Graph) (fuel : Nat) (url : String)
    (visited : List String) (depth maxDepth : Nat) :
    (url ∈ visited → crawlF g (fuel + 1) url visited depth maxDepth = some (visited, []))
    ∧ (∀ p, crawlF g fuel url visited depth maxDepth = some p →
        visited ⊆ p.1 ∧ (url ∉ visited → depth ≤ maxDepth → url ∈ p.1)) := by
  constructor
  · intro hv
    rw [crawlF, if_pos (Or.inl hv)]
  · intro p hp
    exact ⟨(crawlF_inv fuel g url visited depth maxDepth p hp).2.1,
      (crawlF_inv fuel g url visited depth maxDepth p hp).2.2⟩

/-- Witness for C10 at a concrete input: a call on an already-visited
URL returns empty at once, leaving the visited set as it was. -/
theorem visited_marked_first_no_reprocess_instance :
    crawlF gTriv 3 "http://a.com" ["http://a.com"] 0 3 = some (["http://a.com"], []) :=
  (visited_marked_first_no_reprocess gTriv 2 "http://a.com" ["http://a.com"] 0 3).1 (by decide)

/-! ## Query path claim theorems -/

/-- C8: a question asked when no PersistedIndex exists returns the
original question with `retrieved_chunks = 0` and `index_found = false`;
when the index exists but retrieval yields zero non-empty chunk texts,
the original question is returned with `retrieved_chunks = 0` and
`index_found = true`.  Both are ordinary `ask` payloads, not error
payloads, and they differ exactly in the `index_found` flag. -/
theorem ask_no_index_and_empty_retrieval (retrieve : String → List String) (q : String) :
    runAsk false retrieve q = Output.ask (Response.text q) 0 false
    ∧ ((∀ d ∈ retrieve q, pyStrip d = "") →
        runAsk true retrieve q = Output.ask (Response.text q) 0 true) := by
  constructor
  · rfl
  · intro hall
    have hsum : summariesOf (retrieve q) = [] := by
      rw [summariesOf, List.filterMap_eq_nil_iff]
      intro d hd
      simp [hall d hd]
    have hst : summaryTextOf (retrieve q) = "" := by rw [summaryTextOf, hsum]; rfl
    rw [runAsk]
    simp [hst]

/-- Witness for C8 at a concrete input: retrieval that returns one
whitespace-only chunk produces the empty-retrieval payload, and the
missing-index payload differs from it exactly in `index_found`. -/
theorem ask_no_index_and_empty_retrieval_instance :
    runAsk false (fun _ => [" "]) "hello" = Output.ask (Response.text "hello") 0 false
    ∧ runAsk true (fun _ => [" "]) "hello" = Output.ask (Response.text "hello") 0 true :=
  ⟨(ask_no_index_and_empty_retrieval (fun _ => [" "]) "hello").1,
    (ask_no_index_and_empty_retrieval (fun _ => [" "]) "hello").2 (by decide)⟩

/-- C9: for a non-empty retrieval result (the assembled summary text is
non-empty), the reply is the instruction payload carrying the count of
retrieved chunks and `index_found = true`; the summaries are exactly the
per-chunk `summaryFn` images of the non-empty stripped chunk texts,
joined by a blank line; `summaryFn` takes at most the first 200
characters of a text (a prefix of it), returns a text of at most 200
characters unchanged with no ellipsis, and appends the ellipsis marker
exactly when the text exceeds 200 characters; and the instruction embeds
the joined summary text and the original question verbatim. -/
theorem ask_prompt_assembly (retrieve : String → List String) (q : String)
    (h : summaryTextOf (retrieve q) ≠ "") :
    runAsk true retrieve q
        = Output.ask (Response.instruction (finalPrompt (summaryTextOf (retrieve q)) q))
            (retrieve q).length true
    ∧ summariesOf (retrieve q)
        = (((retrieve q).map pyStrip).filter (fun t => !t.data.isEmpty)).map summaryFn
    ∧ (∀ t : String, (pyTake t 200).data.length ≤ 200
        ∧ t.data = (pyTake t 200).data ++ t.data.drop 200)
    ∧ (∀ t : String, t.data.length ≤ 200 → summaryFn t = t)
    ∧ (∀ t : String, 200 < t.data.length → summaryFn t = pyTake t 200 ++ "...")
    ∧ (∃ a b : List Char,
        (finalPrompt (summaryTextOf (retrieve q)) q).data = a ++ q.data ++ b)
    ∧ (∃ a b : List Char,
        (finalPrompt (summaryTextOf (retrieve q)) q).data
          = a ++ (summaryTextOf (retrieve q)).data ++ b) := by
  have hdata : ¬((summaryTextOf (retrieve q)).data = []) := by
    intro hnil
    exact h (String.ext_iff.mpr (by simp [hnil]))
  refine ⟨?_, summariesOf_eq (retrieve q), ?_, ?_, ?_, ?_, ?_⟩
  · rw [runAsk]
    simp only [if_pos, if_true]
    rw [if_neg hdata]
  · intro t
    refine ⟨?_, (List.take_append_drop 200 t.data).symm⟩
    simp [pyTake, List.length_take]
  · intro t ht
    rw [summaryFn, if_neg (by omega)]
    have : pyTake t 200 = t := by
      rw [pyTake, List.take_of_length_le ht]
    rw [this]
    cases t with
    | mk d => show String.mk (d ++ []) = String.mk d; rw [List.append_nil]
  · intro t ht
    rw [summaryFn, if_pos ht]
  · exact ⟨(promptPre ++ summaryTextOf (retrieve q) ++ promptMid).data, promptPost.data,
      by simp [finalPrompt, String.data_append, List.append_assoc]⟩
  · exact ⟨promptPre.data, (promptMid ++ (q ++ promptPost)).data,
      by simp [finalPrompt, String.data_append, List.append_assoc]⟩

/-- Witness for C9 at a concrete input: one non-empty retrieved chunk
produces the instruction payload with `retrieved_chunks = 1` and
`index_found = true`. -/
theorem ask_prompt_assembly_instance :
    summaryTextOf (rOneChunk "what?") ≠ ""
    ∧ runAsk true rOneChunk "what?"
        = Output.ask
            (Response.instruction (finalPrompt (summaryTextOf (rOneChunk "what?")) "what?"))
            (rOneChunk "what?").length true :=
  ⟨by decide, (ask_prompt_assembly rOneChunk "what?" (by decide)).1⟩

/-! ## Ingestion claim theorems -/

/-- C1 counterexample: the claim asserts that an ingestion ending in the
fatal no-content error leaves the index state a subsequent query observes
unchanged.  Starting from a state holding an index, an ingestion whose
sources all yield nothing ends in the fatal error payload, yet the prior
index is gone (it was deleted at doc_loader.py lines 237-238 before
scraping): a query before the failed ingestion reports
`index_found = true`, a query after it reports `index_found = false`. -/
theorem index_error_path_not_all_or_nothing :
    (mainRun (fun _ => ([] : List String)) (fun _ => ([] : List String))
        ⟨some ["old"], false⟩ (Cmd.index "http://x.com")).1.index = none
    ∧ (⟨some ["old"], false⟩ : SysState).index = some ["old"]
    ∧ isFatalErr (mainRun (fun _ => ([] : List String)) (fun _ => ([] : List String))
        ⟨some ["old"], false⟩ (Cmd.index "http://x.com")).2 = true
    ∧ (mainRun (fun _ => ([] : List String)) (fun _ => ([] : List String))
        (mainRun (fun _ => ([] : List String)) (fun _ => ([] : List String))
          ⟨some ["old"], false⟩ (Cmd.index "http://x.com")).1
        (Cmd.ask "q")).2 = Output.ask (Response.text "q") 0 false
    ∧ (mainRun (fun _ => ([] : List String)) (fun _ => ([] : List String))
        ⟨some ["old"], false⟩ (Cmd.ask "q")).2 = Output.ask (Response.text "q") 0 true := by
  refine ⟨by decide, by decide, by decide, by decide, by decide⟩

/-- C1 (amended): rebuild is delete-then-rebuild, not all-or-nothing.
The no-sources error is raised before anything is deleted, so it leaves
the caller-visible state unchanged; a successful rebuild replaces the
index with exactly the aggregate chunks of the new sources, independent
of the prior state (so after `rebuild(chunksA)` then `rebuild(chunksB)` a
query sees only entries derived from chunksB); but an ingestion that ends
in the fatal no-content error has already deleted the prior index, so a
subsequent query observes no index (`index_found = false`) rather than
the prior state. -/
theorem rebuild_delete_then_rebuild (sc retrieve : String → List String)
    (st : SysState) (raw : String) (hs : st.scrapeRan = false) :
    (parseUrls raw = [] → (mainRun sc retrieve st (Cmd.index raw)).1 = st)
    ∧ (parseUrls raw ≠ [] → aggregateChunks sc (parseUrls raw) ≠ [] →
        (mainRun sc retrieve st (Cmd.index raw)).1.index
          = some (aggregateChunks sc (parseUrls raw)))
    ∧ (parseUrls raw ≠ [] → aggregateChunks sc (parseUrls raw) = [] →
        (mainRun sc retrieve st (Cmd.index raw)).1.index = none
        ∧ (∀ q, (mainRun sc retrieve (mainRun sc retrieve st (Cmd.index raw)).1
              (Cmd.ask q)).2 = Output.ask (Response.text q) 0 false)) := by
  refine ⟨?_, ?_, ?_⟩
  · intro h1
    simp [mainRun, runIndex, hs, h1]
  · intro h1 h2
    simp [mainRun, runIndex, hs, h1, h2]
  · intro h1 h2
    constructor
    · simp [mainRun, runIndex, hs, h1, h2]
    · intro q
      simp [mainRun, runIndex, hs, h1, h2, runAsk]

/-- Witness for the amended C1 at a concrete input: a successful rebuild
replaces a prior index with exactly the new aggregate chunks. -/
theorem rebuild_delete_then_rebuild_instance :
    parseUrls "http://x.com" ≠ []
    ∧ aggregateChunks (fun _ => ["c1", "c2"]) (parseUrls "http://x.com") ≠ []
    ∧ (mainRun (fun _ => ["c1", "c2"]) (fun _ => []) ⟨some ["old"], false⟩
        (Cmd.index "http://x.com")).1.index
        = some (aggregateChunks (fun _ => ["c1", "c2"]) (parseUrls "http://x.com")) :=
  ⟨by decide, by decide,
    (rebuild_delete_then_rebuild (fun _ => ["c1", "c2"]) (fun _ => [])
      ⟨some ["old"], false⟩ "http://x.com" rfl).2.1 (by decide) (by decide)⟩

/-- C7: in a fresh process (session flag unset), an ingestion request
produces the fatal payload `{response, error: true, retry: false}` if and
only if no sources are configured or the aggregate chunk set over all
sources is empty; on every other ingestion the payload is the success
payload.  The transition is a total function, so every failure resolves
to a structured payload. -/
theorem ingest_error_iff_no_sources_or_no_content (sc retrieve : String → List String)
    (st : SysState) (raw : String) (hs : st.scrapeRan = false) :
    isFatalErr (mainRun sc retrieve st (Cmd.index raw)).2 = true
      ↔ (parseUrls raw = [] ∨ aggregateChunks sc (parseUrls raw) = []) := by
  by_cases h1 : parseUrls raw = []
  · simp [mainRun, runIndex, hs, h1, isFatalErr]
  · by_cases h2 : aggregateChunks sc (parseUrls raw) = []
    · simp [mainRun, runIndex, hs, h1, h2, isFatalErr]
    · simp [mainRun, runIndex, hs, h1, h2, isFatalErr]

/-- Witness for C7 at a concrete input: one configured source that
scrapes nothing yields the fatal error payload. -/
theorem ingest_error_iff_no_sources_or_no_content_instance :
    SysState.scrapeRan ⟨none, false⟩ = false
    ∧ isFatalErr (mainRun (fun _ => ([] : List String)) (fun _ => ([] : List String))
        ⟨none, false⟩ (Cmd.index "http://a.com")).2 = true :=
  ⟨rfl,
    (ingest_error_iff_no_sources_or_no_content (fun _ => []) (fun _ => [])
      ⟨none, false⟩ "http://a.com" rfl).mpr (Or.inr (by decide))⟩
